import Mathlib

/-
Shallow embedding of the Campus Mobility client (a React Native ride-sharing
app for college students) together with spec-modelled backend membership
operations where the spec describes backend behaviour whose code is absent
from the repository snapshot (only the mobile client sources are present).

Each definition carries a doc comment naming the source file and function it
embeds.  JavaScript strings become Lean `String`, JS numbers used as integer
minute counts become `Nat`, JS `null`/`undefined` becomes `Option`, and
fetch outcomes (token lookup, HTTP status, network exceptions) become
explicit inductive outcome types threaded through the translated handlers.
-/

/-! ### Time formatting (src/app/(tabs)/explore.tsx lines 192-198 and
src/app/ride-detail/[id].tsx lines 113-119; the two copies are textually
identical) -/

/-- Embeds `mins.toString().padStart(2, '0')`: decimal rendering of the
minute component padded on the left with '0' to width 2. -/
def padStart2 (n : Nat) : String :=
  let s := toString n
  if s.length < 2 then "0" ++ s else s

/-- Embeds the `displayHours` local of `formatTime`:
`hours > 12 ? hours - 12 : hours === 0 ? 12 : hours` with
`hours = Math.floor(minutes / 60)`. -/
def displayHour (minutes : Nat) : Nat :=
  if minutes / 60 > 12 then minutes / 60 - 12
  else if minutes / 60 = 0 then 12
  else minutes / 60

/-- Embeds the `period` local of `formatTime`: `hours >= 12 ? 'PM' : 'AM'`. -/
def timePeriod (minutes : Nat) : String :=
  if minutes / 60 ≥ 12 then "PM" else "AM"

/-- Embeds `formatTime` from src/app/(tabs)/explore.tsx (also duplicated in
src/app/ride-detail/[id].tsx): renders minutes-from-midnight on a 12-hour
clock as `` `${displayHours}:${mins.toString().padStart(2,'0')} ${period}` ``. -/
def formatTime (minutes : Nat) : String :=
  toString (displayHour minutes) ++ ":" ++ padStart2 (minutes % 60)
    ++ " " ++ timePeriod minutes

/-! ### Explore screen ride cards (src/app/(tabs)/explore.tsx) -/

/-- Embeds the `LocationData` interface (description plus optional
coordinates; the numeric coordinate payload is carried opaquely, no
arithmetic is performed on it in the modelled fragment). -/
structure LocationData where
  description : String
  latitude : Option Int := none
  longitude : Option Int := none
deriving DecidableEq

/-- Embeds the `RidePost` interface of src/app/(tabs)/explore.tsx
(fields used by the modelled ride-card logic). -/
structure RidePost where
  origin : LocationData
  destination : LocationData
  departure_date : String
  earliest_time : Nat
  latest_time : Nat
  communities : List String
  creator_email : String
  max_participants : Nat
  available_spots : Nat
  status : String
  user_ids : List String
deriving DecidableEq

/-- Embeds `isUserJoined` (explore.tsx lines 222-225):
`currentUserEmail && (ride.user_ids.includes(currentUserEmail) ||
ride.creator_email === currentUserEmail)`; a `null` user email makes the
expression falsy. -/
def isUserJoined (currentUserEmail : Option String) (ride : RidePost) : Bool :=
  match currentUserEmail with
  | none => false
  | some e => ride.user_ids.contains e || ride.creator_email == e

/-- Embeds `isUserCreator` (explore.tsx lines 227-229):
`currentUserEmail && ride.creator_email === currentUserEmail`. -/
def isUserCreator (currentUserEmail : Option String) (ride : RidePost) : Bool :=
  match currentUserEmail with
  | none => false
  | some e => ride.creator_email == e

/-- Embeds the `disabled` prop of the join/leave button in `renderRideCard`
(explore.tsx line 380): `ride.available_spots === 0 && !isUserJoined(ride)`. -/
def joinButtonDisabled (cur : Option String) (ride : RidePost) : Bool :=
  ride.available_spots == 0 && !(isUserJoined cur ride)

/-- Embeds the join/leave button label in `renderRideCard` (explore.tsx
lines 385-386): `available_spots === 0 && !isUserJoined(ride) ? 'Full' :
isUserJoined(ride) ? 'Leave' : 'Join'`. -/
def joinButtonLabel (cur : Option String) (ride : RidePost) : String :=
  if ride.available_spots == 0 && !(isUserJoined cur ride) then "Full"
  else if isUserJoined cur ride then "Leave"
  else "Join"

/-- Embeds the conditional rendering of the Delete button in
`renderRideCard` (explore.tsx lines 400-412): the button is mounted exactly
when `isUserCreator(ride)` is truthy. -/
def deleteButtonShown (cur : Option String) (ride : RidePost) : Bool :=
  isUserCreator cur ride

/-- C10: for every minutes-from-midnight value `m ≤ 1439`, `formatTime`
renders a 12-hour clock string whose displayed hour lies in 1..12, whose
minute field is `m % 60` zero-padded to two digits, and whose period is
"AM" exactly when `m < 720`; in particular `formatTime 0 = "12:00 AM"` and
`formatTime 720 = "12:00 PM"`. -/
theorem formatTime_twelve_hour_clock (m : Nat) (hm : m ≤ 1439) :
    1 ≤ displayHour m ∧ displayHour m ≤ 12 ∧
    (timePeriod m = "AM" ↔ m < 720) ∧
    formatTime m =
      toString (displayHour m) ++ ":" ++ padStart2 (m % 60)
        ++ " " ++ timePeriod m ∧
    formatTime 0 = "12:00 AM" ∧ formatTime 720 = "12:00 PM" := by
  refine ⟨?_, ?_, ?_, rfl, by decide, by decide⟩
  · unfold displayHour
    split
    · omega
    · split <;> omega
  · unfold displayHour
    split
    · omega
    · split <;> omega
  · unfold timePeriod
    split
    · next h => exact iff_of_false (by decide) (by omega)
    · next h => exact iff_of_true rfl (by omega)

/-- Witness for C10 at `m = 300` (5:00 AM). -/
theorem formatTime_twelve_hour_clock_witness :
    300 ≤ 1439 ∧
    (1 ≤ displayHour 300 ∧ displayHour 300 ≤ 12 ∧
      (timePeriod 300 = "AM" ↔ 300 < 720) ∧
      formatTime 300 =
        toString (displayHour 300) ++ ":" ++ padStart2 (300 % 60)
          ++ " " ++ timePeriod 300 ∧
      formatTime 0 = "12:00 AM" ∧ formatTime 720 = "12:00 PM") :=
  ⟨by decide, formatTime_twelve_hour_clock 300 (by decide)⟩

/-- C6: for every ride and every signed-in user, `isUserJoined` holds if and
only if the user's email appears in the ride's `user_ids` list or equals the
ride's `creator_email`, so the creator counts as joined even when absent
from `user_ids`. -/
theorem isUserJoined_iff_member_or_creator (e : String) (ride : RidePost) :
    isUserJoined (some e) ride = true ↔
      (e ∈ ride.user_ids ∨ ride.creator_email = e) := by
  simp [isUserJoined]

/-- Witness for C6: a user who is only the creator counts as joined. -/
theorem isUserJoined_iff_member_or_creator_witness :
    isUserJoined (some "a@pomona.edu")
      { origin := ⟨"A", none, none⟩, destination := ⟨"B", none, none⟩,
        departure_date := "2025-01-01", earliest_time := 480,
        latest_time := 600, communities := ["Pomona"],
        creator_email := "a@pomona.edu", max_participants := 4,
        available_spots := 3, status := "active", user_ids := [] } = true :=
  (isUserJoined_iff_member_or_creator "a@pomona.edu" _).mpr (Or.inr rfl)

/-! ### Spec-modelled backend membership operations.  The backend request
handlers are not part of the repository snapshot (only the mobile client is
under version control here), so the join/delete operations are modelled
from the spec (spec.md sections 3, 4.2 and 4.3). -/

/-- Modelled from the spec: the backend ride-request document — "creator
email, max participants, current participant list" (spec.md section 3);
the backend handler code is missing from the snapshot. -/
structure Ride where
  creator_email : String
  max_participants : Nat
  participants : List String
deriving DecidableEq

/-- Modelled from the spec: error outcomes of `joinRide` — "fails with
`Full` ...; fails with `AlreadyMember` ..." (spec.md section 4.3). -/
inductive JoinError where
  | Full
  | AlreadyMember
deriving DecidableEq

/-- Modelled from the spec: error outcome of `deleteRide` — "delete fails
with `Forbidden` unless requester is the creator" (spec.md section 4.2). -/
inductive DeleteError where
  | Forbidden
deriving DecidableEq

/-- Modelled from the spec: `joinRide(id, user)` — "fails with `Full` if
participants == max; fails with `AlreadyMember` if already joined;
otherwise appends user, returns updated roster" (spec.md section 4.3). -/
def joinRide (ride : Ride) (user : String) : Except JoinError Ride :=
  if ride.participants.length = ride.max_participants then
    Except.error JoinError.Full
  else if user ∈ ride.participants then
    Except.error JoinError.AlreadyMember
  else
    Except.ok { ride with participants := ride.participants ++ [user] }

/-- Modelled from the spec: `deleteRide(id, requester)` — "delete fails
with `Forbidden` unless requester is the creator" (spec.md section 4.2). -/
def deleteRide (ride : Ride) (requester : String) : Except DeleteError Unit :=
  if requester = ride.creator_email then Except.ok ()
  else Except.error DeleteError.Forbidden

/-- C1: joining preserves `participants.length ≤ max_participants`, joining
a full ride fails with `Full`, and in the explore list a ride with zero
available spots whose viewer is not a member shows a disabled button
labeled "Full", so no join request is issued against a full ride. -/
theorem join_capacity_and_full_button (ride : Ride) (u : String)
    (cur : String) (rp : RidePost)
    (hinv : ride.participants.length ≤ ride.max_participants)
    (hfull : rp.available_spots = 0)
    (hnj : isUserJoined (some cur) rp = false) :
    (∀ r2, joinRide ride u = Except.ok r2 →
      r2.participants.length ≤ r2.max_participants) ∧
    (ride.participants.length = ride.max_participants →
      joinRide ride u = Except.error JoinError.Full) ∧
    joinButtonDisabled (some cur) rp = true ∧
    joinButtonLabel (some cur) rp = "Full" := by
  refine ⟨?_, ?_, ?_, ?_⟩
  · intro r2 h
    unfold joinRide at h
    split at h
    · exact Except.noConfusion h
    · next hne =>
      split at h
      · exact Except.noConfusion h
      · obtain rfl := Except.ok.inj h
        simp only [List.length_append, List.length_cons, List.length_nil]
        omega
  · intro hlen
    unfold joinRide
    rw [if_pos hlen]
  · simp [joinButtonDisabled, hfull, hnj]
  · simp [joinButtonLabel, hfull, hnj]

/-- Witness for C1: a full two-seat ride rejects a third rider, and the
explore card for a spotless ride shows a disabled "Full" button to a
non-member viewer. -/
theorem join_capacity_and_full_button_witness :
    (({ creator_email := "a@pomona.edu", max_participants := 2, participants := ["a@pomona.edu", "b@hmc.edu"] } : Ride).participants.length ≤ ({ creator_email := "a@pomona.edu", max_participants := 2, participants := ["a@pomona.edu", "b@hmc.edu"] } : Ride).max_participants ∧
      ({ origin := ⟨"A", none, none⟩, destination := ⟨"B", none, none⟩, departure_date := "2025-01-01", earliest_time := 480, latest_time := 600, communities := ["Pomona"], creator_email := "a@pomona.edu", max_participants := 2, available_spots := 0, status := "active", user_ids := ["a@pomona.edu", "b@hmc.edu"] } : RidePost).available_spots = 0 ∧
      isUserJoined (some "c@cmc.edu") { origin := ⟨"A", none, none⟩, destination := ⟨"B", none, none⟩, departure_date := "2025-01-01", earliest_time := 480, latest_time := 600, communities := ["Pomona"], creator_email := "a@pomona.edu", max_participants := 2, available_spots := 0, status := "active", user_ids := ["a@pomona.edu", "b@hmc.edu"] } = false) ∧
    joinRide { creator_email := "a@pomona.edu", max_participants := 2, participants := ["a@pomona.edu", "b@hmc.edu"] } "c@cmc.edu" = Except.error JoinError.Full ∧
    joinButtonDisabled (some "c@cmc.edu") { origin := ⟨"A", none, none⟩, destination := ⟨"B", none, none⟩, departure_date := "2025-01-01", earliest_time := 480, latest_time := 600, communities := ["Pomona"], creator_email := "a@pomona.edu", max_participants := 2, available_spots := 0, status := "active", user_ids := ["a@pomona.edu", "b@hmc.edu"] } = true ∧
    joinButtonLabel (some "c@cmc.edu") { origin := ⟨"A", none, none⟩, destination := ⟨"B", none, none⟩, departure_date := "2025-01-01", earliest_time := 480, latest_time := 600, communities := ["Pomona"], creator_email := "a@pomona.edu", max_participants := 2, available_spots := 0, status := "active", user_ids := ["a@pomona.edu", "b@hmc.edu"] } = "Full" :=
  ⟨⟨by decide, by decide, by decide⟩,
    (join_capacity_and_full_button { creator_email := "a@pomona.edu", max_participants := 2, participants := ["a@pomona.edu", "b@hmc.edu"] } "c@cmc.edu" "c@cmc.edu" { origin := ⟨"A", none, none⟩, destination := ⟨"B", none, none⟩, departure_date := "2025-01-01", earliest_time := 480, latest_time := 600, communities := ["Pomona"], creator_email := "a@pomona.edu", max_participants := 2, available_spots := 0, status := "active", user_ids := ["a@pomona.edu", "b@hmc.edu"] }
      (by decide) (by decide) (by decide)).2.1 (by decide),
    (join_capacity_and_full_button { creator_email := "a@pomona.edu", max_participants := 2, participants := ["a@pomona.edu", "b@hmc.edu"] } "c@cmc.edu" "c@cmc.edu" { origin := ⟨"A", none, none⟩, destination := ⟨"B", none, none⟩, departure_date := "2025-01-01", earliest_time := 480, latest_time := 600, communities := ["Pomona"], creator_email := "a@pomona.edu", max_participants := 2, available_spots := 0, status := "active", user_ids := ["a@pomona.edu", "b@hmc.edu"] }
      (by decide) (by decide) (by decide)).2.2.1,
    (join_capacity_and_full_button { creator_email := "a@pomona.edu", max_participants := 2, participants := ["a@pomona.edu", "b@hmc.edu"] } "c@cmc.edu" "c@cmc.edu" { origin := ⟨"A", none, none⟩, destination := ⟨"B", none, none⟩, departure_date := "2025-01-01", earliest_time := 480, latest_time := 600, communities := ["Pomona"], creator_email := "a@pomona.edu", max_participants := 2, available_spots := 0, status := "active", user_ids := ["a@pomona.edu", "b@hmc.edu"] }
      (by decide) (by decide) (by decide)).2.2.2⟩

/-- C2: the explore list offers the Delete action exactly when the current
user's email equals the ride's `creator_email`, and (spec-modelled backend)
a delete attempt by any other caller is rejected with `Forbidden`. -/
theorem delete_only_creator (cur req : String) (rp : RidePost)
    (ride : Ride) :
    (deleteButtonShown (some cur) rp = true ↔ rp.creator_email = cur) ∧
    (req ≠ ride.creator_email →
      deleteRide ride req = Except.error DeleteError.Forbidden) ∧
    deleteRide ride ride.creator_email = Except.ok () := by
  refine ⟨?_, ?_, ?_⟩
  · simp [deleteButtonShown, isUserCreator]
  · intro hne
    unfold deleteRide
    rw [if_neg hne]
  · unfold deleteRide
    rw [if_pos rfl]

/-- Witness for C2: a non-creator's delete attempt is rejected and the
Delete button is hidden from a non-creator viewer. -/
theorem delete_only_creator_witness :
    "b@hmc.edu" ≠ "a@pomona.edu" ∧
    (deleteButtonShown (some "b@hmc.edu")
      { origin := ⟨"A", none, none⟩, destination := ⟨"B", none, none⟩,
        departure_date := "2025-01-01", earliest_time := 480,
        latest_time := 600, communities := ["Pomona"],
        creator_email := "a@pomona.edu", max_participants := 4,
        available_spots := 2, status := "active", user_ids := [] } = true ↔
      "a@pomona.edu" = "b@hmc.edu") ∧
    deleteRide
      { creator_email := "a@pomona.edu", max_participants := 4,
        participants := ["a@pomona.edu"] } "b@hmc.edu" =
      Except.error DeleteError.Forbidden :=
  ⟨by decide,
    (delete_only_creator "b@hmc.edu" "b@hmc.edu"
      { origin := ⟨"A", none, none⟩, destination := ⟨"B", none, none⟩,
        departure_date := "2025-01-01", earliest_time := 480,
        latest_time := 600, communities := ["Pomona"],
        creator_email := "a@pomona.edu", max_participants := 4,
        available_spots := 2, status := "active", user_ids := [] }
      { creator_email := "a@pomona.edu", max_participants := 4,
        participants := ["a@pomona.edu"] }).1,
    (delete_only_creator "b@hmc.edu" "b@hmc.edu"
      { origin := ⟨"A", none, none⟩, destination := ⟨"B", none, none⟩,
        departure_date := "2025-01-01", earliest_time := 480,
        latest_time := 600, communities := ["Pomona"],
        creator_email := "a@pomona.edu", max_participants := 4,
        available_spots := 2, status := "active", user_ids := [] }
      { creator_email := "a@pomona.edu", max_participants := 4,
        participants := ["a@pomona.edu"] }).2.1 (by decide)⟩

/-! ### College email validation (src/utils/collegeUtils.ts) -/

/-- Embeds the `College` interface of src/utils/collegeUtils.ts. -/
structure College where
  name : String
  shortName : String
  domain : String
deriving DecidableEq

/-- Embeds the `COLLEGE_DOMAINS` lookup table of src/utils/collegeUtils.ts
(object-key lookup becomes a case split on the domain string). -/
def collegeDomains (domain : String) : Option College :=
  if domain = "pomona.edu" then
    some ⟨"Pomona College", "Pomona", "pomona.edu"⟩
  else if domain = "hmc.edu" then
    some ⟨"Harvey Mudd College", "Harvey Mudd", "hmc.edu"⟩
  else if domain = "scrippscollege.edu" then
    some ⟨"Scripps College", "Scripps", "scrippscollege.edu"⟩
  else if domain = "pitzer.edu" then
    some ⟨"Pitzer College", "Pitzer", "pitzer.edu"⟩
  else if domain = "cmc.edu" then
    some ⟨"Claremont McKenna College", "CMC", "cmc.edu"⟩
  else if domain = "andrew.cmu.edu" then
    some ⟨"Carnegie Mellon University", "CMU", "andrew.cmu.edu"⟩
  else none

/-- Embeds JavaScript `String.prototype.split(sep)` for a one-character
separator, working on the character list of the string. -/
def splitOnChar (c : Char) : List Char → List (List Char)
  | [] => [[]]
  | x :: xs =>
    if x == c then [] :: splitOnChar c xs
    else
      match splitOnChar c xs with
      | [] => [[x]]
      | h :: t => (x :: h) :: t

/-- Embeds JavaScript `String.prototype.toLowerCase` for the ASCII domain
strings handled by the validator. -/
def toLowerString (s : String) : String :=
  String.mk (s.data.map Char.toLower)

/-- List version of JavaScript `String.prototype.startsWith`, used to build
the `endsWith` test below. -/
def listStartsWith : List Char → List Char → Bool
  | [], _ => true
  | _ :: _, [] => false
  | a :: as, b :: bs => a == b && listStartsWith as bs

/-- Embeds JavaScript `String.prototype.endsWith`. -/
def stringEndsWith (p s : String) : Bool :=
  listStartsWith p.data.reverse s.data.reverse

/-- Embeds `email.split('@')[1]?.toLowerCase()` from `validateCollegeEmail`
(src/utils/collegeUtils.ts line 45); `none` models `undefined`. -/
def emailDomain (email : String) : Option String :=
  ((splitOnChar '@' email.data).get? 1).map (fun l => toLowerString (String.mk l))

/-- Embeds the result shape `{ isValid, college?, error? }` of
`validateCollegeEmail`. -/
structure EmailValidation where
  isValid : Bool
  college : Option College
  error : Option String
deriving DecidableEq

/-- Embeds `validateCollegeEmail` (src/utils/collegeUtils.ts lines 40-68):
rejects empty/at-less emails and non-`.edu` domains; returns the matching
`College` for a known domain and an "Unknown University" placeholder (so
the backend AI validates) for an unknown `.edu` domain. -/
def validateCollegeEmail (email : String) : EmailValidation :=
  if email = "" ∨ email.data.contains '@' = false then
    ⟨false, none, some "Invalid email format"⟩
  else
    match emailDomain email with
    | none => ⟨false, none, some "Only .edu email addresses are allowed"⟩
    | some domain =>
      if stringEndsWith ".edu" domain then
        match collegeDomains domain with
        | some college => ⟨true, some college, none⟩
        | none => ⟨true, some ⟨"Unknown University", "Unknown", domain⟩, none⟩
      else ⟨false, none, some "Only .edu email addresses are allowed"⟩

/-- C3 counterexample: the claim says an email whose domain is `.edu` but
not a recognized college domain gets `isValid = false`; the code instead
returns `isValid = true` (with an "Unknown University" placeholder,
deferring validation to the backend AI), as at `student@mit.edu`. -/
theorem validateCollegeEmail_unknown_edu_accepted :
    (validateCollegeEmail "student@mit.edu").isValid = true ∧
    (validateCollegeEmail "student@mit.edu").error = none ∧
    (validateCollegeEmail "student@mit.edu").college =
      some ⟨"Unknown University", "Unknown", "mit.edu"⟩ := by decide

/-- C3 (amended): malformed (empty or `@`-less) emails and non-`.edu`
domains are rejected client-side with `isValid = false` and an error;
every `.edu` email is accepted — a recognized domain with the matching
`College` record, an unrecognized one with an "Unknown University"
placeholder so the backend AI performs the validation. -/
theorem validateCollegeEmail_spec (email : String) :
    ((email = "" ∨ email.data.contains '@' = false) →
      validateCollegeEmail email = ⟨false, none, some "Invalid email format"⟩) ∧
    (∀ d, email ≠ "" → email.data.contains '@' = true →
      emailDomain email = some d →
      stringEndsWith ".edu" d = false →
      validateCollegeEmail email =
        ⟨false, none, some "Only .edu email addresses are allowed"⟩) ∧
    (∀ d c, email ≠ "" → email.data.contains '@' = true →
      emailDomain email = some d →
      stringEndsWith ".edu" d = true →
      collegeDomains d = some c →
      validateCollegeEmail email = ⟨true, some c, none⟩) ∧
    (∀ d, email ≠ "" → email.data.contains '@' = true →
      emailDomain email = some d →
      stringEndsWith ".edu" d = true →
      collegeDomains d = none →
      validateCollegeEmail email =
        ⟨true, some ⟨"Unknown University", "Unknown", d⟩, none⟩) := by
  refine ⟨?_, ?_, ?_, ?_⟩
  · intro h
    unfold validateCollegeEmail
    rw [if_pos h]
  · intro d hne hc hd hedu
    unfold validateCollegeEmail
    have hcond : ¬(email = "" ∨ email.data.contains '@' = false) := by
      intro hor
      rcases hor with hor | hor
      · exact hne hor
      · rw [hor] at hc
        exact Bool.noConfusion hc
    rw [if_neg hcond]
    rw [hd]
    simp [hedu]
  · intro d c hne hc hd hedu hcol
    unfold validateCollegeEmail
    have hcond : ¬(email = "" ∨ email.data.contains '@' = false) := by
      intro hor
      rcases hor with hor | hor
      · exact hne hor
      · rw [hor] at hc
        exact Bool.noConfusion hc
    rw [if_neg hcond]
    rw [hd]
    simp [hedu, hcol]
  · intro d hne hc hd hedu hcol
    unfold validateCollegeEmail
    have hcond : ¬(email = "" ∨ email.data.contains '@' = false) := by
      intro hor
      rcases hor with hor | hor
      · exact hne hor
      · rw [hor] at hc
        exact Bool.noConfusion hc
    rw [if_neg hcond]
    rw [hd]
    simp [hedu, hcol]

/-- Witness for C3 (amended): a recognized domain yields its `College`
record, a non-`.edu` address is rejected. -/
theorem validateCollegeEmail_spec_witness :
    validateCollegeEmail "alice@pomona.edu" =
      ⟨true, some ⟨"Pomona College", "Pomona", "pomona.edu"⟩, none⟩ ∧
    validateCollegeEmail "bob@gmail.com" =
      ⟨false, none, some "Only .edu email addresses are allowed"⟩ ∧
    validateCollegeEmail "not-an-email" =
      ⟨false, none, some "Invalid email format"⟩ :=
  ⟨(validateCollegeEmail_spec "alice@pomona.edu").2.2.1 "pomona.edu"
      ⟨"Pomona College", "Pomona", "pomona.edu"⟩
      (by decide) (by decide) (by decide) (by decide) (by decide),
    (validateCollegeEmail_spec "bob@gmail.com").2.1 "gmail.com"
      (by decide) (by decide) (by decide) (by decide),
    (validateCollegeEmail_spec "not-an-email").1 (Or.inr (by decide))⟩

/-! ### Price estimate fetch (src/app/(tabs)/UberShare.tsx lines 170-211) -/

/-- Embeds the values held by the `priceEstimate` state variable of
UberShare.tsx: a provider pricing payload (carried opaquely as `A`) or the
`{ unavailable: true, message }` sentinel; the surrounding `Option` models
JS `null`. -/
inductive PriceEstimate (A : Type) where
  | pricing (p : A)
  | unavailableSentinel (message : String)
deriving DecidableEq

/-- Embeds the possible outcomes of the `/price-estimate` fetch inside
`getPriceEstimate`: missing stored token, an OK response carrying
`{ success, pricing?, message? }`, a non-OK HTTP response, or a thrown
network/parse exception. -/
inductive PriceFetchOutcome (A : Type) where
  | noToken
  | httpOk (success : Bool) (pricing : Option A) (message : Option String)
  | httpNotOk
  | networkException
deriving DecidableEq

/-- Embeds `getPriceEstimate` (UberShare.tsx lines 170-211) as a state
transformer on the `priceEstimate` state: missing coordinates or a missing
token leave the state unchanged; an OK response with `success && pricing`
stores the provider pricing; an OK response without them stores the
sentinel with `data.message || "Price estimate unavailable"`; a non-OK
response stores the sentinel; a thrown exception stores `null`. -/
def getPriceEstimate (A : Type) (coordsPresent : Bool)
    (prev : Option (PriceEstimate A)) (o : PriceFetchOutcome A) :
    Option (PriceEstimate A) :=
  if !coordsPresent then prev
  else
    match o with
    | PriceFetchOutcome.noToken => prev
    | PriceFetchOutcome.httpOk success pricing message =>
      match success, pricing with
      | true, some p => some (PriceEstimate.pricing p)
      | _, _ =>
        some (PriceEstimate.unavailableSentinel
          (message.getD "Price estimate unavailable"))
    | PriceFetchOutcome.httpNotOk =>
      some (PriceEstimate.unavailableSentinel "Price estimate unavailable")
    | PriceFetchOutcome.networkException => none

/-- Holds when the provider response itself carried the pricing payload
`p`: an OK response with `success = true` and `pricing = p`. -/
def providerReturnedPrice (A : Type) (o : PriceFetchOutcome A) (p : A) : Prop :=
  match o with
  | PriceFetchOutcome.httpOk true (some q) _ => q = p
  | _ => False

/-- C4 counterexample: the claim says a network exception produces the
`{ unavailable: true, message }` sentinel; the code instead clears the
estimate to `null` (UberShare.tsx line 207, `setPriceEstimate(null)` in the
catch block). -/
theorem getPriceEstimate_exception_clears :
    getPriceEstimate Unit true (some (PriceEstimate.unavailableSentinel "x"))
      PriceFetchOutcome.networkException = none := by decide

/-- C4 (amended): a non-OK HTTP response, a `success = false` flag and a
missing pricing payload each produce the `{ unavailable: true, message }`
sentinel; a network exception instead clears the estimate to `null`; in no
failure case is a locally computed price produced — any pricing payload in
the resulting state either came from the provider response or was already
the previous state. -/
theorem getPriceEstimate_no_fabricated_price (A : Type)
    (prev : Option (PriceEstimate A)) (o : PriceFetchOutcome A) :
    getPriceEstimate A true prev PriceFetchOutcome.httpNotOk =
      some (PriceEstimate.unavailableSentinel "Price estimate unavailable") ∧
    (∀ pr msg, getPriceEstimate A true prev
        (PriceFetchOutcome.httpOk false pr msg) =
      some (PriceEstimate.unavailableSentinel
        (msg.getD "Price estimate unavailable"))) ∧
    (∀ msg, getPriceEstimate A true prev
        (PriceFetchOutcome.httpOk true none msg) =
      some (PriceEstimate.unavailableSentinel
        (msg.getD "Price estimate unavailable"))) ∧
    getPriceEstimate A true prev PriceFetchOutcome.networkException = none ∧
    getPriceEstimate A false prev o = prev ∧
    (∀ p, getPriceEstimate A true prev o = some (PriceEstimate.pricing p) →
      providerReturnedPrice A o p ∨ getPriceEstimate A true prev o = prev) := by
  refine ⟨rfl, fun pr msg => rfl, fun msg => rfl, rfl, rfl, ?_⟩
  intro p h
  cases o with
  | noToken => exact Or.inr rfl
  | httpOk success pricing message =>
    cases success with
    | false => simp [getPriceEstimate] at h
    | true =>
      cases pricing with
      | none => simp [getPriceEstimate] at h
      | some q =>
        simp [getPriceEstimate] at h
        exact Or.inl (by simp only [providerReturnedPrice]; exact h)
  | httpNotOk => simp [getPriceEstimate] at h
  | networkException => simp [getPriceEstimate] at h

/-- Witness for C4 (amended) at a concrete provider failure. -/
theorem getPriceEstimate_no_fabricated_price_witness :
    getPriceEstimate Unit true none PriceFetchOutcome.httpNotOk =
      some (PriceEstimate.unavailableSentinel "Price estimate unavailable") ∧
    getPriceEstimate Unit true none
        (PriceFetchOutcome.httpOk false none (some "Uber API down")) =
      some (PriceEstimate.unavailableSentinel "Uber API down") ∧
    getPriceEstimate Unit true none PriceFetchOutcome.networkException = none :=
  ⟨(getPriceEstimate_no_fabricated_price Unit none
      PriceFetchOutcome.httpNotOk).1,
    (getPriceEstimate_no_fabricated_price Unit none
      PriceFetchOutcome.httpNotOk).2.1 none (some "Uber API down"),
    (getPriceEstimate_no_fabricated_price Unit none
      PriceFetchOutcome.httpNotOk).2.2.2.1⟩

/-! ### Ride posting form (src/app/(tabs)/UberShare.tsx lines 251-322) -/

/-- Embeds the UberShare form state: origin, destination, departure date,
time window and selected communities (`whereFrom`, `whereTo`,
`departureDate`, `earliestTime`, `latestTime`, `selectedCommunities`). -/
structure FormState where
  whereFrom : LocationData
  whereTo : LocationData
  departureDate : String
  earliestTime : Nat
  latestTime : Nat
  selectedCommunities : List String
deriving DecidableEq

/-- Embeds the `rideData` payload built by `postRideRequest`
(UberShare.tsx lines 272-280). -/
structure RidePayload where
  origin : LocationData
  destination : LocationData
  departure_date : String
  earliest_time : Nat
  latest_time : Nat
  communities : List String
  max_participants : Nat
deriving DecidableEq

/-- Embeds the observable outcome of `postRideRequest` up to the point the
request is (or is not) issued: a validation alert with no request, a
missing-token alert with no request, or a POST of the built payload. -/
inductive PostResult where
  | validationError (msg : String)
  | authError
  | posted (payload : RidePayload)
deriving DecidableEq

/-- Embeds `postRideRequest` (UberShare.tsx lines 251-322): empty origin or
destination description alerts "Please select both origin and destination";
an empty community selection alerts "Please select at least one community";
a missing token alerts "Please login again"; otherwise the `rideData`
payload is POSTed with `max_participants: 4`. -/
def postRideRequest (form : FormState) (token : Option String) : PostResult :=
  if form.whereFrom.description = "" ∨ form.whereTo.description = "" then
    PostResult.validationError "Please select both origin and destination"
  else if form.selectedCommunities.length = 0 then
    PostResult.validationError "Please select at least one community"
  else
    match token with
    | none => PostResult.authError
    | some _ =>
      PostResult.posted
        { origin := form.whereFrom, destination := form.whereTo,
          departure_date := form.departureDate,
          earliest_time := form.earliestTime,
          latest_time := form.latestTime,
          communities := form.selectedCommunities,
          max_participants := 4 }

/-- C5: with an empty origin description, empty destination description or
no selected community, `postRideRequest` reports a validation error and
issues no ride-creation request; for a valid form (and a stored auth
token) it posts the payload carrying the origin, destination, departure
date, earliest/latest time window, selected communities and
`max_participants = 4`. -/
theorem postRideRequest_validates_then_posts (form : FormState)
    (tok : Option String) (t : String) :
    ((form.whereFrom.description = "" ∨ form.whereTo.description = "" ∨
        form.selectedCommunities = []) →
      ∃ msg, postRideRequest form tok = PostResult.validationError msg) ∧
    (form.whereFrom.description ≠ "" → form.whereTo.description ≠ "" →
      form.selectedCommunities ≠ [] →
      postRideRequest form (some t) = PostResult.posted
        { origin := form.whereFrom, destination := form.whereTo,
          departure_date := form.departureDate,
          earliest_time := form.earliestTime,
          latest_time := form.latestTime,
          communities := form.selectedCommunities,
          max_participants := 4 }) := by
  constructor
  · intro h
    rcases h with h1 | h2 | h3
    · exact ⟨"Please select both origin and destination",
        by simp [postRideRequest, h1]⟩
    · exact ⟨"Please select both origin and destination",
        by simp [postRideRequest, h2]⟩
    · by_cases hd : form.whereFrom.description = "" ∨
        form.whereTo.description = ""
      · exact ⟨"Please select both origin and destination",
          by simp [postRideRequest, hd]⟩
      · refine ⟨"Please select at least one community", ?_⟩
        unfold postRideRequest
        rw [if_neg hd, if_pos (by simp [h3])]
  · intro hf ht hc
    unfold postRideRequest
    rw [if_neg (by simp [hf, ht]),
      if_neg (by simpa using hc)]

/-- Witness for C5: an empty form is rejected with a validation error; a
filled form posts the payload with `max_participants = 4`. -/
theorem postRideRequest_validates_then_posts_witness :
    (∃ msg, postRideRequest
      { whereFrom := ⟨"", none, none⟩, whereTo := ⟨"", none, none⟩,
        departureDate := "2025-01-01", earliestTime := 480,
        latestTime := 600, selectedCommunities := [] } (some "tok") =
      PostResult.validationError msg) ∧
    postRideRequest
      { whereFrom := ⟨"Pomona College", none, none⟩,
        whereTo := ⟨"LAX", none, none⟩, departureDate := "2025-01-01",
        earliestTime := 480, latestTime := 600,
        selectedCommunities := ["Pomona", "5C"] } (some "tok") =
      PostResult.posted
        { origin := ⟨"Pomona College", none, none⟩,
          destination := ⟨"LAX", none, none⟩,
          departure_date := "2025-01-01", earliest_time := 480,
          latest_time := 600, communities := ["Pomona", "5C"],
          max_participants := 4 } :=
  ⟨(postRideRequest_validates_then_posts
      { whereFrom := ⟨"", none, none⟩, whereTo := ⟨"", none, none⟩,
        departureDate := "2025-01-01", earliestTime := 480,
        latestTime := 600, selectedCommunities := [] } (some "tok") "tok").1
      (Or.inl rfl),
    (postRideRequest_validates_then_posts
      { whereFrom := ⟨"Pomona College", none, none⟩,
        whereTo := ⟨"LAX", none, none⟩, departureDate := "2025-01-01",
        earliestTime := 480, latestTime := 600,
        selectedCommunities := ["Pomona", "5C"] } (some "tok") "tok").2
      (by decide) (by decide) (by decide)⟩

/-! ### Messaging screen routing (src/components/messaging/MessagingScreen.tsx) -/

/-- Embeds the `ChatInfo` interface returned by `/ride/{id}/chat-info`. -/
structure ChatInfo where
  is_member : Bool
  message_count : Nat
  question_count : Nat
  can_send_messages : Bool
  can_ask_questions : Bool
deriving DecidableEq

/-- Embeds the `ScreenState` union type of MessagingScreen.tsx:
`'main' | 'group-chat' | 'ask-question' | 'my-questions'`. -/
inductive ScreenState where
  | main
  | groupChat
  | askQuestion
  | myQuestions
deriving DecidableEq

/-- The screen that `MessagingScreen`'s render body returns. -/
inductive RenderedScreen where
  | loadingView
  | errorView
  | groupChatScreen
  | askQuestionScreen
  | myQuestionsScreen
  | mainMember
  | mainNonMember
deriving DecidableEq

/-- Embeds the render body of `MessagingScreen`
(src/components/messaging/MessagingScreen.tsx lines 83-209): loading and
missing chat-info early returns, then `currentScreen === 'group-chat' &&
chatInfo.is_member`, `currentScreen === 'ask-question' &&
!chatInfo.is_member`, `currentScreen === 'my-questions'`, and finally the
membership-dependent main screen. -/
def renderMessagingScreen (loading : Bool) (chatInfo : Option ChatInfo)
    (currentScreen : ScreenState) : RenderedScreen :=
  if loading then RenderedScreen.loadingView
  else
    match chatInfo with
    | none => RenderedScreen.errorView
    | some info =>
      if currentScreen = ScreenState.groupChat ∧ info.is_member = true then
        RenderedScreen.groupChatScreen
      else if currentScreen = ScreenState.askQuestion ∧
          info.is_member = false then
        RenderedScreen.askQuestionScreen
      else if currentScreen = ScreenState.myQuestions then
        RenderedScreen.myQuestionsScreen
      else if info.is_member then RenderedScreen.mainMember
      else RenderedScreen.mainNonMember

/-- C7: the group-chat screen (where text messages are posted) is rendered
only when chat-info reports `is_member = true`, and the ask-question screen
only when `is_member = false`, so through this UI a non-member cannot post
to group chat and a member cannot ask a question. -/
theorem messaging_screens_membership_gated (loading : Bool)
    (chatInfo : Option ChatInfo) (s : ScreenState) :
    (renderMessagingScreen loading chatInfo s =
        RenderedScreen.groupChatScreen →
      ∃ info, chatInfo = some info ∧ info.is_member = true) ∧
    (renderMessagingScreen loading chatInfo s =
        RenderedScreen.askQuestionScreen →
      ∃ info, chatInfo = some info ∧ info.is_member = false) := by
  cases loading with
  | true => simp [renderMessagingScreen]
  | false =>
    cases chatInfo with
    | none => simp [renderMessagingScreen]
    | some info =>
      cases hm : info.is_member with
      | true =>
        cases s <;>
          simp [renderMessagingScreen, hm]
      | false =>
        cases s <;>
          simp [renderMessagingScreen, hm]

/-- Witness for C7: a member viewing `group-chat` reaches the group chat,
and the gating implications are discharged at that concrete state. -/
theorem messaging_screens_membership_gated_witness :
    (∃ info, (some { is_member := true, message_count := 3, question_count := 0, can_send_messages := true, can_ask_questions := false } : Option ChatInfo) = some info ∧ info.is_member = true) ∧
    (∃ info, (some { is_member := false, message_count := 3, question_count := 0, can_send_messages := false, can_ask_questions := true } : Option ChatInfo) = some info ∧ info.is_member = false) :=
  ⟨(messaging_screens_membership_gated false (some { is_member := true, message_count := 3, question_count := 0, can_send_messages := true, can_ask_questions := false }) ScreenState.groupChat).1 (by decide),
    (messaging_screens_membership_gated false (some { is_member := false, message_count := 3, question_count := 0, can_send_messages := false, can_ask_questions := true }) ScreenState.askQuestion).2 (by decide)⟩

/-! ### Group chat polling (src/components/messaging/GroupChatScreen.tsx
lines 70-95) -/

/-- Vocabulary of the mount-time effects a chat screen could install: a
one-shot call, a `setInterval` timer, a keyboard listener, or a push/live
subscription (the last never occurs in the translated component). -/
inductive MountStep where
  | callAction (name : String)
  | installInterval (tickName : String) (ms : Nat)
  | addKeyboardListener (event : String)
  | subscribePush (channel : String)
deriving DecidableEq

/-- Cleanup steps returned by a mount effect. -/
inductive CleanupStep where
  | clearIntervalStep
  | removeKeyboardListener (event : String)
deriving DecidableEq

/-- Embeds the `useEffect` body of `GroupChatScreen` (GroupChatScreen.tsx
lines 70-95): `getCurrentUserEmail()`, `loadChatData()`,
`setInterval(loadChatData, 30000)`, and two keyboard listeners. -/
def groupChatMountSteps : List MountStep :=
  [MountStep.callAction "getCurrentUserEmail",
    MountStep.callAction "loadChatData",
    MountStep.installInterval "loadChatData" 30000,
    MountStep.addKeyboardListener "keyboardDidShow",
    MountStep.addKeyboardListener "keyboardDidHide"]

/-- Embeds the cleanup function returned by the same `useEffect`
(GroupChatScreen.tsx lines 90-94): `clearInterval(interval)` and removal
of the two keyboard listeners. -/
def groupChatCleanupSteps : List CleanupStep :=
  [CleanupStep.clearIntervalStep,
    CleanupStep.removeKeyboardListener "keyboardDidShow",
    CleanupStep.removeKeyboardListener "keyboardDidHide"]

/-- Embeds the endpoints fetched by `loadChatData` (GroupChatScreen.tsx
lines 109-143): the ride's messages and questions, in parallel. -/
def loadChatDataRequests (rideId : String) : List String :=
  ["/ride/" ++ rideId ++ "/messages", "/ride/" ++ rideId ++ "/questions"]

/-- Selects the timer-installation steps. -/
def isIntervalStep (s : MountStep) : Bool :=
  match s with
  | MountStep.installInterval _ _ => true
  | _ => false

/-- Selects push/live-update subscription steps. -/
def isPushStep (s : MountStep) : Bool :=
  match s with
  | MountStep.subscribePush _ => true
  | _ => false

/-- C8: the group-chat screen installs on mount exactly one interval timer,
of exactly 30000 milliseconds, whose tick is `loadChatData` (which
re-fetches the ride's messages and questions); the cleanup clears the
interval; and no push or live-update subscription is installed. -/
theorem group_chat_polls_every_30s (rideId : String) :
    groupChatMountSteps.filter isIntervalStep =
      [MountStep.installInterval "loadChatData" 30000] ∧
    CleanupStep.clearIntervalStep ∈ groupChatCleanupSteps ∧
    loadChatDataRequests rideId =
      ["/ride/" ++ rideId ++ "/messages", "/ride/" ++ rideId ++ "/questions"] ∧
    groupChatMountSteps.filter isPushStep = [] := by
  refine ⟨by decide, by decide, rfl, by decide⟩

/-! ### Community options fetch (src/utils/universityUtils.ts lines 44-80) -/

/-- Embeds the `user_university` field shape of `CommunityOptions`. -/
structure UniversityRef where
  name : String
  short_name : String
  city : String
  state : String
deriving DecidableEq

/-- Embeds the `NearbyUniversity` interface (the numeric distance is
carried opaquely, no arithmetic is performed on it). -/
structure NearbyUniversity where
  name : String
  short_name : String
  city : String
  distance_miles : Int
  relationship : String
deriving DecidableEq

/-- Embeds the `CommunityOptions` interface of
src/utils/universityUtils.ts. -/
structure CommunityOptions where
  communities : List String
  user_university : UniversityRef
  nearby_universities : List NearbyUniversity
  source : String
deriving DecidableEq

/-- Embeds the possible outcomes of the `/community-options` fetch inside
`getCommunityOptions`: missing stored token (which throws), a non-OK HTTP
response (which throws), a thrown network/parse exception, or an OK
response carrying the payload. -/
inductive CommunityFetchOutcome where
  | noToken
  | httpNotOk (status : Nat)
  | exception
  | ok (payload : CommunityOptions)
deriving DecidableEq

/-- Embeds the catch-block fallback value of `getCommunityOptions`
(universityUtils.ts lines 67-78). -/
def legacyFallbackOptions : CommunityOptions :=
  { communities := ["Pomona", "Harvey Mudd", "Scripps", "Pitzer", "CMC", "5C"],
    user_university :=
      { name := "Unknown University", short_name := "Unknown",
        city := "Unknown", state := "Unknown" },
    nearby_universities := [],
    source := "legacy" }

/-- Embeds `getCommunityOptions` (universityUtils.ts lines 44-80): a
missing token and a non-OK response throw inside the `try`, and every
thrown error is caught and converted to the legacy fallback value; only an
OK response returns the server payload. -/
def getCommunityOptions (o : CommunityFetchOutcome) : CommunityOptions :=
  match o with
  | CommunityFetchOutcome.noToken => legacyFallbackOptions
  | CommunityFetchOutcome.httpNotOk _ => legacyFallbackOptions
  | CommunityFetchOutcome.exception => legacyFallbackOptions
  | CommunityFetchOutcome.ok payload => payload

/-- Holds of the failure outcomes of the `/community-options` fetch. -/
def isCommunityFetchFailure (o : CommunityFetchOutcome) : Bool :=
  match o with
  | CommunityFetchOutcome.ok _ => false
  | _ => true

/-- C9: `getCommunityOptions` is total over failures — every failure of the
`/community-options` request (missing token, non-OK status, or thrown
exception) returns the fixed legacy fallback with communities
`['Pomona', 'Harvey Mudd', 'Scripps', 'Pitzer', 'CMC', '5C']` and source
`'legacy'`; the server payload is returned only on success. -/
theorem getCommunityOptions_legacy_fallback (o : CommunityFetchOutcome) :
    (isCommunityFetchFailure o = true →
      getCommunityOptions o = legacyFallbackOptions) ∧
    (∀ p, o = CommunityFetchOutcome.ok p → getCommunityOptions o = p) ∧
    legacyFallbackOptions.communities =
      ["Pomona", "Harvey Mudd", "Scripps", "Pitzer", "CMC", "5C"] ∧
    legacyFallbackOptions.source = "legacy" := by
  refine ⟨?_, ?_, by decide, by decide⟩
  · intro h
    cases o with
    | noToken => rfl
    | httpNotOk status => rfl
    | exception => rfl
    | ok payload => exact Bool.noConfusion h
  · intro p hp
    subst hp
    rfl

/-- Witness for C9: a non-OK response yields the legacy fallback, and a
successful response is passed through. -/
theorem getCommunityOptions_legacy_fallback_witness :
    getCommunityOptions (CommunityFetchOutcome.httpNotOk 500) =
      legacyFallbackOptions ∧
    getCommunityOptions (CommunityFetchOutcome.ok legacyFallbackOptions) =
      legacyFallbackOptions :=
  ⟨(getCommunityOptions_legacy_fallback
      (CommunityFetchOutcome.httpNotOk 500)).1 (by decide),
    (getCommunityOptions_legacy_fallback
      (CommunityFetchOutcome.ok legacyFallbackOptions)).2.1
      legacyFallbackOptions rfl⟩
